import Mathlib

/-!
Verification of the Student Performance Analysis System.

The program is embedded shallowly: the grade matrix is a `List (List ℚ)` (each row a
student, ten columns of scores), numpy reductions become functions on lists of rationals,
numpy NaN results are modelled with `Option` and numpy exceptions with `Except`.
Standard deviations are carried as their squares (variances), since the square root of a
rational is not rational; every property about a standard deviation is stated on the
variance under the square root.
-/

namespace SPA

/-- Flattening of the grade matrix into the list of all its values, row-major, as
numpy flatten does. -/
def flatten (g : List (List ℚ)) : List ℚ := g.flatten

/-- The np.mean reduction of a nonempty 1-D array: sum divided by length. On an empty
array numpy returns NaN instead; this total function is used only where the array is
known nonempty, and the empty cases are modelled explicitly in the operations below. -/
def npMean (l : List ℚ) : ℚ := l.sum / l.length

/-- The square of np.std, i.e. the population variance: numpy computes the mean of
squared deviations from the mean and then takes a square root. The rational embedding
carries the variance; the reported std is its square root. -/
def npVar (l : List ℚ) : ℚ := npMean (l.map (fun x => (x - npMean l) * (x - npMean l)))

/-- The np.max reduction; numpy raises ValueError on an empty array, a case guarded by
the callers below. -/
def npMax : List ℚ → ℚ
  | [] => 0
  | x :: xs => xs.foldl max x

/-- The np.min reduction; same empty-array caveat as npMax. -/
def npMin : List ℚ → ℚ
  | [] => 0
  | x :: xs => xs.foldl min x

/-- The np.median reduction: the middle element of the ascending sort, or the mean of
the two middle elements for an even count. -/
def npMedian (l : List ℚ) : ℚ :=
  let s := List.insertionSort (· ≤ ·) l
  if l.length % 2 = 1 then s.getD (l.length / 2) 0
  else (s.getD (l.length / 2 - 1) 0 + s.getD (l.length / 2) 0) / 2

/-- Result record of StatisticsCalculator.calculate_overall_stats. The field
overall_var is the square of the reported overall_std (see npVar). -/
structure OverallStats where
  overall_avg : ℚ
  overall_var : ℚ
  overall_median : ℚ
  max : ℚ
  min : ℚ
deriving DecidableEq

/-- StatisticsCalculator.calculate_overall_stats. On a matrix with no values,
np.mean, np.std and np.median evaluate to NaN (with a RuntimeWarning), and then np.max
raises ValueError, so the call as a whole fails with the numpy zero-size reduction
error; on a nonempty matrix all five reductions are defined. -/
def calculate_overall_stats (grades : List (List ℚ)) : Except String OverallStats :=
  let flat := flatten grades
  if flat = [] then
    .error "zero-size array to reduction operation maximum which has no identity"
  else
    .ok ⟨npMean flat, npVar flat, npMedian flat, npMax flat, npMin flat⟩

/-- The five letter grades, in the order the source lists its masks. -/
def gradeLetters : List Char := ['A', 'B', 'C', 'D', 'F']

/-- The boolean mask StatisticsCalculator.get_grade_distribution builds for each
letter over a single flattened value. -/
def gradeMask (letter : Char) (x : ℚ) : Bool :=
  if letter = 'A' then decide (90 ≤ x)
  else if letter = 'B' then decide (80 ≤ x) && decide (x < 90)
  else if letter = 'C' then decide (70 ≤ x) && decide (x < 80)
  else if letter = 'D' then decide (60 ≤ x) && decide (x < 70)
  else decide (x < 60)

/-- One entry of the distribution dictionary. A percentage of none models the NaN
numpy produces for the division 0 / 0 on an empty dataset. -/
structure LetterStat where
  count : ℕ
  percentage : Option ℚ
deriving DecidableEq

/-- StatisticsCalculator.get_grade_distribution, as the map from a letter to its
dictionary entry: count is np.sum of the mask over the flattened matrix and percentage
is (count / total) * 100, where a zero total makes the division 0 / 0, which numpy
evaluates to NaN with a RuntimeWarning rather than raising. -/
def get_grade_distribution (grades : List (List ℚ)) (letter : Char) : LetterStat :=
  let all := flatten grades
  let total := all.length
  let count := (all.filter (gradeMask letter)).length
  ⟨count, if total = 0 then none else some (((count : ℚ) / (total : ℚ)) * 100)⟩

/-- A matrix whose rows all have k columns flattens to k * N values. -/
lemma length_flatten_rows (g : List (List ℚ)) {k : ℕ} (hk : ∀ r ∈ g, r.length = k) :
    (flatten g).length = k * g.length := by
  induction g with
  | nil => simp [flatten]
  | cons r t ih =>
    have hr : r.length = k := hk r (List.mem_cons_self r t)
    have ht : ∀ s ∈ t, s.length = k := fun s hs => hk s (List.mem_cons_of_mem r hs)
    simp only [flatten, List.flatten_cons, List.length_append, hr, List.length_cons]
    rw [show t.flatten = flatten t from rfl, ih ht]
    ring

/-- C10: the percentage divisor in get_grade_distribution is the number of flattened
values; it is positive for every dataset with at least one student, making every
percentage well-defined, while on the zero-student dataset the function divides 0 by 0,
yielding NaN percentages for every letter instead of raising. -/
theorem C10_distribution_divisor (grades : List (List ℚ))
    (h10 : ∀ r ∈ grades, r.length = 10) :
    (grades ≠ [] →
      0 < (flatten grades).length ∧
      ∀ letter ∈ gradeLetters, ((get_grade_distribution grades letter).percentage).isSome) ∧
    (∀ letter : Char, (get_grade_distribution [] letter).percentage = none ∧
      (get_grade_distribution [] letter).count = 0) := by
  constructor
  · intro hne
    have hlen : (flatten grades).length = 10 * grades.length :=
      length_flatten_rows grades h10
    have hpos : 0 < (flatten grades).length := by
      rw [hlen]
      have : 0 < grades.length := List.length_pos.mpr hne
      omega
    refine ⟨hpos, fun letter _ => ?_⟩
    simp only [get_grade_distribution]
    rw [if_neg (Nat.pos_iff_ne_zero.mp hpos)]
    rfl
  · intro letter
    exact ⟨rfl, rfl⟩

/-- Witness for C10 at a concrete one-student dataset. -/
theorem C10_distribution_divisor_witness :
    (∀ r ∈ [[(90 : ℚ), 85, 72, 61, 55, 90, 80, 70, 60, 59]], r.length = 10) ∧
    (([[(90 : ℚ), 85, 72, 61, 55, 90, 80, 70, 60, 59]] ≠ [] →
      0 < (flatten [[(90 : ℚ), 85, 72, 61, 55, 90, 80, 70, 60, 59]]).length ∧
      ∀ letter ∈ gradeLetters,
        ((get_grade_distribution [[(90 : ℚ), 85, 72, 61, 55, 90, 80, 70, 60, 59]]
          letter).percentage).isSome) ∧
    (∀ letter : Char, (get_grade_distribution [] letter).percentage = none ∧
      (get_grade_distribution [] letter).count = 0)) :=
  ⟨by decide, C10_distribution_divisor _ (by decide)⟩

/-- Every rational value satisfies exactly one of the five letter masks. -/
lemma gradeMask_partition (x : ℚ) :
    gradeLetters.countP (fun L => gradeMask L x) = 1 := by
  by_cases h90 : (90 : ℚ) ≤ x
  · have hb : ¬ x < 90 := not_lt.mpr h90
    have hc : ¬ x < 80 := fun h => hb (h.trans (by norm_num))
    have hd : ¬ x < 70 := fun h => hb (h.trans (by norm_num))
    have hf : ¬ x < 60 := fun h => hb (h.trans (by norm_num))
    simp [gradeLetters, gradeMask, h90, hb, hc, hd, hf]
  · by_cases h80 : (80 : ℚ) ≤ x
    · have hb : x < 90 := not_le.mp h90
      have hc : ¬ x < 80 := not_lt.mpr h80
      have hd : ¬ x < 70 := fun h => hc (h.trans (by norm_num))
      have hf : ¬ x < 60 := fun h => hc (h.trans (by norm_num))
      simp [gradeLetters, gradeMask, h90, h80, hb, hc, hd, hf]
    · by_cases h70 : (70 : ℚ) ≤ x
      · have hc : x < 80 := not_le.mp h80
        have hd : ¬ x < 70 := not_lt.mpr h70
        have hf : ¬ x < 60 := fun h => hd (h.trans (by norm_num))
        simp [gradeLetters, gradeMask, h90, h80, h70, hc, hd, hf]
      · by_cases h60 : (60 : ℚ) ≤ x
        · have hd : x < 70 := not_le.mp h70
          have hf : ¬ x < 60 := not_lt.mpr h60
          simp [gradeLetters, gradeMask, h90, h80, h70, h60, hd, hf]
        · have hf : x < 60 := not_le.mp h60
          have hd : x < 70 := hf.trans (by norm_num)
          have hc : x < 80 := hf.trans (by norm_num)
          have hb : x < 90 := hf.trans (by norm_num)
          simp [gradeLetters, gradeMask, h90, h80, h70, h60, hb, hc, hd, hf]

/-- The five per-letter filters of any value list have lengths summing to the length of
the list: the masks are an exhaustive, non-overlapping partition. -/
lemma filter_counts_sum (l : List ℚ) :
    (l.filter (gradeMask 'A')).length + (l.filter (gradeMask 'B')).length +
      (l.filter (gradeMask 'C')).length + (l.filter (gradeMask 'D')).length +
      (l.filter (gradeMask 'F')).length = l.length := by
  induction l with
  | nil => rfl
  | cons x t ih =>
    have h1 := gradeMask_partition x
    simp only [gradeLetters, List.countP_cons, List.countP_nil] at h1
    simp only [List.filter_cons, apply_ite List.length, List.length_cons]
    split_ifs at h1 ⊢ <;> omega

/-- C4: get_grade_distribution assigns every flattened score to exactly one letter
bucket, boundary scores 90, 80, 70, 60 fall into the higher bucket, the five counts sum
to exactly N * 10, and on a nonempty dataset each percentage equals
100 * count / (N * 10). -/
theorem C4_grade_distribution (grades : List (List ℚ))
    (h10 : ∀ r ∈ grades, r.length = 10) :
    (∀ x : ℚ, gradeLetters.countP (fun L => gradeMask L x) = 1) ∧
    (gradeMask 'A' 90 = true ∧ gradeMask 'B' 80 = true ∧
      gradeMask 'C' 70 = true ∧ gradeMask 'D' 60 = true) ∧
    (gradeLetters.map (fun L => (get_grade_distribution grades L).count)).sum =
      grades.length * 10 ∧
    (grades ≠ [] → ∀ L ∈ gradeLetters,
      (get_grade_distribution grades L).percentage =
        some (100 * ((get_grade_distribution grades L).count : ℚ) /
          ((grades.length : ℚ) * 10))) := by
  have hlen : (flatten grades).length = 10 * grades.length :=
    length_flatten_rows grades h10
  refine ⟨gradeMask_partition, by decide, ?_, ?_⟩
  · have := filter_counts_sum (flatten grades)
    simp only [gradeLetters, List.map_cons, List.map_nil, List.sum_cons, List.sum_nil,
      get_grade_distribution]
    omega
  · intro hne L _
    have hpos : (flatten grades).length ≠ 0 := by
      rw [hlen]
      have : 0 < grades.length := List.length_pos.mpr hne
      omega
    simp only [get_grade_distribution]
    rw [if_neg hpos]
    congr 1
    rw [hlen]
    have hq : ((10 * grades.length : ℕ) : ℚ) = (grades.length : ℚ) * 10 := by
      push_cast
      ring
    rw [hq]
    have hne10 : ((grades.length : ℚ) * 10) ≠ 0 := by
      have : 0 < grades.length := List.length_pos.mpr hne
      have : (0 : ℚ) < (grades.length : ℚ) := by exact_mod_cast this
      positivity
    field_simp
    ring

/-- Witness for C4 at a concrete two-student dataset. -/
theorem C4_grade_distribution_witness :
    (∀ r ∈ [[(90 : ℚ), 85, 72, 61, 55, 90, 80, 70, 60, 59],
            [(10 : ℚ), 20, 30, 40, 50, 60, 70, 80, 90, 100]], r.length = 10) ∧
    ((∀ x : ℚ, gradeLetters.countP (fun L => gradeMask L x) = 1) ∧
    (gradeMask 'A' 90 = true ∧ gradeMask 'B' 80 = true ∧
      gradeMask 'C' 70 = true ∧ gradeMask 'D' 60 = true) ∧
    (gradeLetters.map (fun L =>
      (get_grade_distribution [[(90 : ℚ), 85, 72, 61, 55, 90, 80, 70, 60, 59],
        [(10 : ℚ), 20, 30, 40, 50, 60, 70, 80, 90, 100]] L).count)).sum =
      ([[(90 : ℚ), 85, 72, 61, 55, 90, 80, 70, 60, 59],
        [(10 : ℚ), 20, 30, 40, 50, 60, 70, 80, 90, 100]] :
          List (List ℚ)).length * 10 ∧
    ([[(90 : ℚ), 85, 72, 61, 55, 90, 80, 70, 60, 59],
      [(10 : ℚ), 20, 30, 40, 50, 60, 70, 80, 90, 100]] ≠ ([] : List (List ℚ)) →
      ∀ L ∈ gradeLetters,
      (get_grade_distribution [[(90 : ℚ), 85, 72, 61, 55, 90, 80, 70, 60, 59],
        [(10 : ℚ), 20, 30, 40, 50, 60, 70, 80, 90, 100]] L).percentage =
        some (100 * ((get_grade_distribution
            [[(90 : ℚ), 85, 72, 61, 55, 90, 80, 70, 60, 59],
             [(10 : ℚ), 20, 30, 40, 50, 60, 70, 80, 90, 100]] L).count : ℚ) /
          ((([[(90 : ℚ), 85, 72, 61, 55, 90, 80, 70, 60, 59],
              [(10 : ℚ), 20, 30, 40, 50, 60, 70, 80, 90, 100]] :
                List (List ℚ)).length : ℚ) * 10)))) :=
  ⟨by decide, C4_grade_distribution _ (by decide)⟩

/-- C5: on a grade matrix with zero rows, calculate_overall_stats does not produce an
explicit InvalidInput failure; it aborts with the numpy zero-size reduction ValueError
raised by np.max, after np.mean, np.std and np.median have silently evaluated to NaN. -/
theorem C5_overall_empty_raises :
    calculate_overall_stats [] =
      .error "zero-size array to reduction operation maximum which has no identity" := rfl

/-- A max-fold lands on its seed or on a list element. -/
lemma foldl_max_mem (xs : List ℚ) (a : ℚ) : xs.foldl max a ∈ a :: xs := by
  induction xs generalizing a with
  | nil => simp [List.foldl]
  | cons x t ih =>
    have h := ih (max a x)
    have hfold : (x :: t).foldl max a = t.foldl max (max a x) := rfl
    rw [hfold]
    rcases List.mem_cons.mp h with h1 | h1
    · rcases max_choice a x with h2 | h2
      · rw [h1, h2]
        exact List.mem_cons_self a (x :: t)
      · rw [h1, h2]
        exact List.mem_cons_of_mem a (List.mem_cons_self x t)
    · exact List.mem_cons_of_mem a (List.mem_cons_of_mem x h1)

/-- A max-fold bounds its seed and every list element from above. -/
lemma le_foldl_max (xs : List ℚ) (a : ℚ) :
    a ≤ xs.foldl max a ∧ ∀ x ∈ xs, x ≤ xs.foldl max a := by
  induction xs generalizing a with
  | nil => simp
  | cons x t ih =>
    obtain ⟨h1, h2⟩ := ih (max a x)
    refine ⟨le_trans (le_max_left a x) h1, ?_⟩
    intro y hy
    rcases List.mem_cons.mp hy with rfl | hy
    · exact le_trans (le_max_right a y) h1
    · exact h2 y hy

/-- A min-fold lands on its seed or on a list element. -/
lemma foldl_min_mem (xs : List ℚ) (a : ℚ) : xs.foldl min a ∈ a :: xs := by
  induction xs generalizing a with
  | nil => simp [List.foldl]
  | cons x t ih =>
    have h := ih (min a x)
    have hfold : (x :: t).foldl min a = t.foldl min (min a x) := rfl
    rw [hfold]
    rcases List.mem_cons.mp h with h1 | h1
    · rcases min_choice a x with h2 | h2
      · rw [h1, h2]
        exact List.mem_cons_self a (x :: t)
      · rw [h1, h2]
        exact List.mem_cons_of_mem a (List.mem_cons_self x t)
    · exact List.mem_cons_of_mem a (List.mem_cons_of_mem x h1)

/-- A min-fold bounds its seed and every list element from below. -/
lemma foldl_min_le (xs : List ℚ) (a : ℚ) :
    xs.foldl min a ≤ a ∧ ∀ x ∈ xs, xs.foldl min a ≤ x := by
  induction xs generalizing a with
  | nil => simp
  | cons x t ih =>
    obtain ⟨h1, h2⟩ := ih (min a x)
    refine ⟨le_trans h1 (min_le_left a x), ?_⟩
    intro y hy
    rcases List.mem_cons.mp hy with rfl | hy
    · exact le_trans h1 (min_le_right a y)
    · exact h2 y hy

/-- The np.max reduction of a nonempty list is an element of the list. -/
lemma npMax_mem {l : List ℚ} (h : l ≠ []) : npMax l ∈ l := by
  cases l with
  | nil => exact absurd rfl h
  | cons x xs => exact foldl_max_mem xs x

/-- The np.max reduction bounds every element of the list. -/
lemma le_npMax {l : List ℚ} : ∀ x ∈ l, x ≤ npMax l := by
  cases l with
  | nil => intro x hx; cases hx
  | cons y ys =>
    intro x hx
    rcases List.mem_cons.mp hx with rfl | hx
    · exact (le_foldl_max ys x).1
    · exact (le_foldl_max ys y).2 x hx

/-- The np.min reduction of a nonempty list is an element of the list. -/
lemma npMin_mem {l : List ℚ} (h : l ≠ []) : npMin l ∈ l := by
  cases l with
  | nil => exact absurd rfl h
  | cons x xs => exact foldl_min_mem xs x

/-- The np.min reduction is below every element of the list. -/
lemma npMin_le {l : List ℚ} : ∀ x ∈ l, npMin l ≤ x := by
  cases l with
  | nil => intro x hx; cases hx
  | cons y ys =>
    intro x hx
    rcases List.mem_cons.mp hx with rfl | hx
    · exact (foldl_min_le ys x).1
    · exact (foldl_min_le ys y).2 x hx

/-- A list sum is at most its length times any upper bound of its elements. -/
lemma sum_le_length_mul {l : List ℚ} {b : ℚ} (h : ∀ x ∈ l, x ≤ b) :
    l.sum ≤ (l.length : ℚ) * b := by
  induction l with
  | nil => simp
  | cons x t ih =>
    have hx : x ≤ b := h x (List.mem_cons_self x t)
    have ht : t.sum ≤ (t.length : ℚ) * b :=
      ih fun y hy => h y (List.mem_cons_of_mem x hy)
    simp only [List.sum_cons, List.length_cons]
    push_cast
    nlinarith

/-- A list sum is at least its length times any lower bound of its elements. -/
lemma length_mul_le_sum {l : List ℚ} {b : ℚ} (h : ∀ x ∈ l, b ≤ x) :
    (l.length : ℚ) * b ≤ l.sum := by
  induction l with
  | nil => simp
  | cons x t ih =>
    have hx : b ≤ x := h x (List.mem_cons_self x t)
    have ht : (t.length : ℚ) * b ≤ t.sum :=
      ih fun y hy => h y (List.mem_cons_of_mem x hy)
    simp only [List.sum_cons, List.length_cons]
    push_cast
    nlinarith

/-- C6: on any matrix with at least one value, calculate_overall_stats returns the
arithmetic mean of the full matrix, the population variance (divisor the number of
values, not one less) under the reported standard deviation, the median of all values
sorted ascending (middle value, or mean of the two middle values for even counts,
stated for every ascending sorted permutation of the values), and the exact maximum
and minimum. -/
theorem C6_overall_stats (grades : List (List ℚ)) (h : flatten grades ≠ []) :
    ∃ st : OverallStats, calculate_overall_stats grades = .ok st ∧
      st.overall_avg * ((flatten grades).length : ℚ) = (flatten grades).sum ∧
      st.overall_var * ((flatten grades).length : ℚ) =
        ((flatten grades).map
          (fun x => (x - st.overall_avg) * (x - st.overall_avg))).sum ∧
      (∀ s : List ℚ, s.Perm (flatten grades) → s.Sorted (· ≤ ·) →
        st.overall_median =
          if (flatten grades).length % 2 = 1 then
            s.getD ((flatten grades).length / 2) 0
          else (s.getD ((flatten grades).length / 2 - 1) 0 +
            s.getD ((flatten grades).length / 2) 0) / 2) ∧
      st.max ∈ flatten grades ∧ (∀ x ∈ flatten grades, x ≤ st.max) ∧
      st.min ∈ flatten grades ∧ (∀ x ∈ flatten grades, st.min ≤ x) := by
  have hlen : ((flatten grades).length : ℚ) ≠ 0 := by
    have : 0 < (flatten grades).length := List.length_pos.mpr h
    exact_mod_cast Nat.pos_iff_ne_zero.mp this
  refine ⟨⟨npMean (flatten grades), npVar (flatten grades), npMedian (flatten grades),
    npMax (flatten grades), npMin (flatten grades)⟩, ?_, ?_, ?_, ?_, ?_, ?_, ?_, ?_⟩
  · simp only [calculate_overall_stats]
    rw [if_neg h]
  · exact div_mul_cancel₀ _ hlen
  · show npVar (flatten grades) * _ = _
    rw [npVar, npMean]
    rw [List.length_map]
    exact div_mul_cancel₀ _ hlen
  · intro s hperm hsort
    have hs : s = List.insertionSort (· ≤ ·) (flatten grades) := by
      refine List.eq_of_perm_of_sorted ?_ hsort
        (List.sorted_insertionSort (· ≤ ·) (flatten grades))
      exact hperm.trans (List.perm_insertionSort (· ≤ ·) (flatten grades)).symm
    rw [hs]
    rfl
  · exact npMax_mem h
  · exact fun x hx => le_npMax x hx
  · exact npMin_mem h
  · exact fun x hx => npMin_le x hx

/-- Witness for C6 at a concrete one-student dataset. -/
theorem C6_overall_stats_witness :
    flatten [[(90 : ℚ), 85, 72, 61, 55, 90, 80, 70, 60, 59]] ≠ [] ∧
    (∃ st : OverallStats,
      calculate_overall_stats [[(90 : ℚ), 85, 72, 61, 55, 90, 80, 70, 60, 59]] =
        .ok st ∧
      st.overall_avg *
          ((flatten [[(90 : ℚ), 85, 72, 61, 55, 90, 80, 70, 60, 59]]).length : ℚ) =
        (flatten [[(90 : ℚ), 85, 72, 61, 55, 90, 80, 70, 60, 59]]).sum ∧
      st.overall_var *
          ((flatten [[(90 : ℚ), 85, 72, 61, 55, 90, 80, 70, 60, 59]]).length : ℚ) =
        ((flatten [[(90 : ℚ), 85, 72, 61, 55, 90, 80, 70, 60, 59]]).map
          (fun x => (x - st.overall_avg) * (x - st.overall_avg))).sum ∧
      (∀ s : List ℚ,
        s.Perm (flatten [[(90 : ℚ), 85, 72, 61, 55, 90, 80, 70, 60, 59]]) →
        s.Sorted (· ≤ ·) →
        st.overall_median =
          if (flatten [[(90 : ℚ), 85, 72, 61, 55, 90, 80, 70, 60, 59]]).length % 2 = 1
          then s.getD
            ((flatten [[(90 : ℚ), 85, 72, 61, 55, 90, 80, 70, 60, 59]]).length / 2) 0
          else (s.getD
            ((flatten [[(90 : ℚ), 85, 72, 61, 55, 90, 80, 70, 60, 59]]).length / 2 - 1)
              0 +
            s.getD
              ((flatten [[(90 : ℚ), 85, 72, 61, 55, 90, 80, 70, 60, 59]]).length / 2)
              0) / 2) ∧
      st.max ∈ flatten [[(90 : ℚ), 85, 72, 61, 55, 90, 80, 70, 60, 59]] ∧
      (∀ x ∈ flatten [[(90 : ℚ), 85, 72, 61, 55, 90, 80, 70, 60, 59]], x ≤ st.max) ∧
      st.min ∈ flatten [[(90 : ℚ), 85, 72, 61, 55, 90, 80, 70, 60, 59]] ∧
      (∀ x ∈ flatten [[(90 : ℚ), 85, 72, 61, 55, 90, 80, 70, 60, 59]], st.min ≤ x)) :=
  ⟨by decide, C6_overall_stats _ (by decide)⟩

/-- C9: on any matrix with at least one value, the overall statistics satisfy
max ≥ avg ≥ min, and the variance under the reported standard deviation is
nonnegative, hence std = sqrt var ≥ 0. -/
theorem C9_overall_ordering (grades : List (List ℚ)) (h : flatten grades ≠ []) :
    ∃ st : OverallStats, calculate_overall_stats grades = .ok st ∧
      st.min ≤ st.overall_avg ∧ st.overall_avg ≤ st.max ∧ 0 ≤ st.overall_var := by
  have hpos : 0 < ((flatten grades).length : ℚ) := by
    have : 0 < (flatten grades).length := List.length_pos.mpr h
    exact_mod_cast this
  refine ⟨⟨npMean (flatten grades), npVar (flatten grades), npMedian (flatten grades),
    npMax (flatten grades), npMin (flatten grades)⟩, ?_, ?_, ?_, ?_⟩
  · simp only [calculate_overall_stats]
    rw [if_neg h]
  · show npMin (flatten grades) ≤ npMean (flatten grades)
    rw [npMean, le_div_iff₀ hpos]
    have := length_mul_le_sum (l := flatten grades) (b := npMin (flatten grades))
      (fun x hx => npMin_le x hx)
    linarith
  · show npMean (flatten grades) ≤ npMax (flatten grades)
    rw [npMean, div_le_iff₀ hpos]
    have := sum_le_length_mul (l := flatten grades) (b := npMax (flatten grades))
      (fun x hx => le_npMax x hx)
    linarith
  · show (0 : ℚ) ≤ npVar (flatten grades)
    rw [npVar, npMean]
    apply div_nonneg
    · apply List.sum_nonneg
      intro x hx
      obtain ⟨y, _, rfl⟩ := List.mem_map.mp hx
      exact mul_self_nonneg _
    · positivity

/-- Witness for C9 at a concrete one-student dataset. -/
theorem C9_overall_ordering_witness :
    flatten [[(90 : ℚ), 85, 72, 61, 55, 90, 80, 70, 60, 59]] ≠ [] ∧
    (∃ st : OverallStats,
      calculate_overall_stats [[(90 : ℚ), 85, 72, 61, 55, 90, 80, 70, 60, 59]] =
        .ok st ∧
      st.min ≤ st.overall_avg ∧ st.overall_avg ≤ st.max ∧ 0 ≤ st.overall_var) :=
  ⟨by decide, C9_overall_ordering _ (by decide)⟩

/-- Result record of StatisticsCalculator.calculate_semester_stats. -/
structure SemesterStats where
  sem1_avg : List ℚ
  sem2_avg : List ℚ
  improvement : List ℚ
  sem1_overall : ℚ
  sem2_overall : ℚ

/-- StatisticsCalculator.calculate_semester_stats: slice the matrix into the first and
last five columns, take the column-wise means (np.mean over axis 0), their elementwise
difference sem2_avg - sem1_avg, and the mean of each five-entry vector of column
means. -/
def calculate_semester_stats (g : List (List ℚ)) : SemesterStats :=
  let s1 := (List.range 5).map (fun j => npMean (g.map (fun r => (r.take 5).getD j 0)))
  let s2 := (List.range 5).map (fun j => npMean (g.map (fun r => (r.drop 5).getD j 0)))
  ⟨s1, s2, List.zipWith (fun a b => a - b) s2 s1, npMean s1, npMean s2⟩

/-- The sum of a five-element list written out through getD. -/
lemma sum_eq_getD5 (q : List ℚ) (h : q.length = 5) :
    q.sum = q.getD 0 0 + q.getD 1 0 + q.getD 2 0 + q.getD 3 0 + q.getD 4 0 := by
  rcases q with _ | ⟨a, q⟩
  · simp at h
  rcases q with _ | ⟨b, q⟩
  · simp at h
  rcases q with _ | ⟨c, q⟩
  · simp at h
  rcases q with _ | ⟨d, q⟩
  · simp at h
  rcases q with _ | ⟨e, q⟩
  · simp at h
  have hq : q = [] := by
    have hlen : q.length = 0 := by
      simp only [List.length_cons] at h
      omega
    exact List.eq_nil_of_length_eq_zero hlen
  subst hq
  simp only [List.sum_cons, List.sum_nil, List.getD_cons_zero, List.getD_cons_succ]
  ring

/-- Column sums against row sums for a matrix of five-column rows: adding the five
column sums is the same as adding all row sums. -/
lemma colsum_eq_rowsum (g : List (List ℚ)) (h5 : ∀ r ∈ g, r.length = 5) :
    (g.map (fun r => r.getD 0 0)).sum + (g.map (fun r => r.getD 1 0)).sum +
      (g.map (fun r => r.getD 2 0)).sum + (g.map (fun r => r.getD 3 0)).sum +
      (g.map (fun r => r.getD 4 0)).sum = (g.map (fun r => r.sum)).sum := by
  induction g with
  | nil => simp
  | cons r t ih =>
    have hr := h5 r (List.mem_cons_self r t)
    have ht : ∀ s ∈ t, s.length = 5 := fun s hs => h5 s (List.mem_cons_of_mem r hs)
    simp only [List.map_cons, List.sum_cons]
    rw [sum_eq_getD5 r hr, ← ih ht]
    ring

/-- getD through an elementwise subtraction of two lists. -/
lemma getD_zipWith_sub (a b : List ℚ) (i : ℕ) (ha : i < a.length) (hb : i < b.length) :
    (List.zipWith (fun x y => x - y) a b).getD i 0 = a.getD i 0 - b.getD i 0 := by
  have hz : i < (List.zipWith (fun x y => x - y) a b).length := by
    rw [List.length_zipWith]
    omega
  rw [List.getD_eq_getElem _ _ hz, List.getElem_zipWith,
    List.getD_eq_getElem _ _ ha, List.getD_eq_getElem _ _ hb]

/-- For a nonempty matrix of five-column rows, the mean of the five column means is the
flat mean of all values: all columns have the same length, so the mean of means
coincides with the overall mean. -/
lemma mean_of_colmeans (g' : List (List ℚ)) (hne : g' ≠ [])
    (h5 : ∀ r ∈ g', r.length = 5) :
    npMean ((List.range 5).map (fun j => npMean (g'.map (fun r => r.getD j 0)))) =
      npMean (flatten g') := by
  have hN : ((g'.length : ℚ)) ≠ 0 := by
    have : 0 < g'.length := List.length_pos.mpr hne
    exact_mod_cast Nat.pos_iff_ne_zero.mp this
  have hrange : List.range 5 = [0, 1, 2, 3, 4] := by decide
  have hflatlen : (flatten g').length = 5 * g'.length := length_flatten_rows g' h5
  have hflatsum : (flatten g').sum = (g'.map (fun r => r.sum)).sum := by
    simp only [flatten, List.sum_flatten]
  have hcol := colsum_eq_rowsum g' h5
  rw [hrange]
  simp only [List.map_cons, List.map_nil, npMean, List.length_map, List.sum_cons,
    List.sum_nil, List.length_cons, List.length_nil]
  rw [hflatlen, hflatsum, ← hcol]
  push_cast
  field_simp
  ring

/-- C7: for every nonempty ten-column matrix, improvement is the elementwise
difference of the semester column means, and each semester overall mean (the mean of
the five per-subject column means) equals the flat mean of all values of that
semester half, since all five columns have the same length. -/
theorem C7_semester_stats (g : List (List ℚ)) (hne : g ≠ [])
    (h10 : ∀ r ∈ g, r.length = 10) :
    (∀ i < 5, (calculate_semester_stats g).improvement.getD i 0 =
      (calculate_semester_stats g).sem2_avg.getD i 0 -
        (calculate_semester_stats g).sem1_avg.getD i 0) ∧
    (calculate_semester_stats g).sem1_overall =
      npMean (flatten (g.map (fun r => r.take 5))) ∧
    (calculate_semester_stats g).sem2_overall =
      npMean (flatten (g.map (fun r => r.drop 5))) := by
  have hne1 : g.map (fun r => r.take 5) ≠ [] := by
    intro hcon
    exact hne (List.map_eq_nil_iff.mp hcon)
  have hne2 : g.map (fun r => r.drop 5) ≠ [] := by
    intro hcon
    exact hne (List.map_eq_nil_iff.mp hcon)
  have h51 : ∀ r ∈ g.map (fun r => r.take 5), r.length = 5 := by
    intro r hr
    obtain ⟨q, hq, rfl⟩ := List.mem_map.mp hr
    rw [List.length_take, h10 q hq]
    omega
  have h52 : ∀ r ∈ g.map (fun r => r.drop 5), r.length = 5 := by
    intro r hr
    obtain ⟨q, hq, rfl⟩ := List.mem_map.mp hr
    rw [List.length_drop, h10 q hq]
  refine ⟨?_, ?_, ?_⟩
  · intro i hi
    simp only [calculate_semester_stats]
    apply getD_zipWith_sub
    · simpa using hi
    · simpa using hi
  · have h2 := mean_of_colmeans (g.map (fun r => r.take 5)) hne1 h51
    simp only [List.map_map, Function.comp_def] at h2
    simpa only [calculate_semester_stats] using h2
  · have h2 := mean_of_colmeans (g.map (fun r => r.drop 5)) hne2 h52
    simp only [List.map_map, Function.comp_def] at h2
    simpa only [calculate_semester_stats] using h2

/-- Witness for C7 at a concrete two-student dataset. -/
theorem C7_semester_stats_witness :
    ([[(90 : ℚ), 90, 90, 90, 90, 95, 95, 95, 95, 95],
      [(40 : ℚ), 40, 40, 40, 40, 30, 30, 30, 30, 30]] : List (List ℚ)) ≠ [] ∧
    ((∀ i < 5, (calculate_semester_stats
        [[(90 : ℚ), 90, 90, 90, 90, 95, 95, 95, 95, 95],
         [(40 : ℚ), 40, 40, 40, 40, 30, 30, 30, 30, 30]]).improvement.getD i 0 =
      (calculate_semester_stats
        [[(90 : ℚ), 90, 90, 90, 90, 95, 95, 95, 95, 95],
         [(40 : ℚ), 40, 40, 40, 40, 30, 30, 30, 30, 30]]).sem2_avg.getD i 0 -
        (calculate_semester_stats
          [[(90 : ℚ), 90, 90, 90, 90, 95, 95, 95, 95, 95],
           [(40 : ℚ), 40, 40, 40, 40, 30, 30, 30, 30, 30]]).sem1_avg.getD i 0) ∧
    (calculate_semester_stats
      [[(90 : ℚ), 90, 90, 90, 90, 95, 95, 95, 95, 95],
       [(40 : ℚ), 40, 40, 40, 40, 30, 30, 30, 30, 30]]).sem1_overall =
      npMean (flatten (([[(90 : ℚ), 90, 90, 90, 90, 95, 95, 95, 95, 95],
        [(40 : ℚ), 40, 40, 40, 40, 30, 30, 30, 30, 30]] :
          List (List ℚ)).map (fun r => r.take 5))) ∧
    (calculate_semester_stats
      [[(90 : ℚ), 90, 90, 90, 90, 95, 95, 95, 95, 95],
       [(40 : ℚ), 40, 40, 40, 40, 30, 30, 30, 30, 30]]).sem2_overall =
      npMean (flatten (([[(90 : ℚ), 90, 90, 90, 90, 95, 95, 95, 95, 95],
        [(40 : ℚ), 40, 40, 40, 40, 30, 30, 30, 30, 30]] :
          List (List ℚ)).map (fun r => r.drop 5)))) :=
  ⟨by decide, C7_semester_stats _ (by decide) (by decide)⟩

/-- Row means of the matrix: np.mean over axis 1, one average per student. -/
def student_averages (g : List (List ℚ)) : List ℚ := g.map npMean

/-- The descending index ranking that np.argsort followed by the [::-1] reversal
produces: an ascending sort of the index list by average, reversed. numpy argsort uses
an unstable quicksort whose tie order is unspecified; the embedding uses a stable sort,
and every property proved below is independent of the tie order. -/
def rankedIndices (g : List (List ℚ)) : List ℕ :=
  (List.insertionSort
    (fun i j => (student_averages g).getD i 0 ≤ (student_averages g).getD j 0)
    (List.range g.length)).reverse

/-- The Python negative-index slice a[-n:]: the last n entries, or the whole list when
n = 0 (because -0 is 0) or when n exceeds the length. -/
def pySliceLast {α : Type} (n : ℕ) (l : List α) : List α :=
  if n = 0 then l else l.drop (l.length - n)

/-- Result record of StudentAnalyzer.rank_students. -/
structure Rankings where
  averages : List ℚ
  top_ids : List ℤ
  top_scores : List ℚ
  bottom_ids : List ℤ
  bottom_scores : List ℚ

/-- StudentAnalyzer.rank_students: rank by row average, then slice the first and last
top_n positions of the descending order, indexing ids and averages by rank. -/
def rank_students (ids : List ℤ) (g : List (List ℚ)) (top_n : ℕ) : Rankings :=
  let avgs := student_averages g
  let ranked := rankedIndices g
  { averages := avgs
    top_ids := (ranked.take top_n).map (fun i => ids.getD i 0)
    top_scores := (ranked.take top_n).map (fun i => avgs.getD i 0)
    bottom_ids := (pySliceLast top_n ranked).map (fun i => ids.getD i 0)
    bottom_scores := (pySliceLast top_n ranked).map (fun i => avgs.getD i 0) }

/-- The score sequence in ranked (descending) order. -/
def descendingScores (g : List (List ℚ)) : List ℚ :=
  (rankedIndices g).map (fun i => (student_averages g).getD i 0)

/-- Reading a list back through getD over its range of positions returns the list. -/
lemma map_range_getD (l : List ℚ) :
    (List.range l.length).map (fun i => l.getD i 0) = l := by
  apply List.ext_getElem
  · simp
  · intro i h1 h2
    simp only [List.getElem_map, List.getElem_range]
    exact List.getD_eq_getElem l 0 h2

/-- The ranked index list holds one position per student. -/
lemma length_rankedIndices (g : List (List ℚ)) :
    (rankedIndices g).length = g.length := by
  rw [rankedIndices, List.length_reverse,
    (List.perm_insertionSort _ _).length_eq, List.length_range]

/-- The ranked score sequence holds one score per student. -/
lemma length_descendingScores (g : List (List ℚ)) :
    (descendingScores g).length = g.length := by
  rw [descendingScores, List.length_map, length_rankedIndices]

/-- The ranked score sequence is sorted in descending order. -/
lemma descendingScores_sorted (g : List (List ℚ)) :
    List.Pairwise (fun a b => b ≤ a) (descendingScores g) := by
  haveI hTot : IsTotal ℕ
      (fun i j => (student_averages g).getD i 0 ≤ (student_averages g).getD j 0) :=
    ⟨fun a b => le_total _ _⟩
  haveI hTrans : IsTrans ℕ
      (fun i j => (student_averages g).getD i 0 ≤ (student_averages g).getD j 0) :=
    ⟨fun a b c hab hbc => le_trans hab hbc⟩
  have hsorted := List.sorted_insertionSort
    (fun i j => (student_averages g).getD i 0 ≤ (student_averages g).getD j 0)
    (List.range g.length)
  have hrev : List.Pairwise
      (fun i j => (student_averages g).getD j 0 ≤ (student_averages g).getD i 0)
      (rankedIndices g) := by
    rw [rankedIndices, List.pairwise_reverse]
    exact hsorted
  exact hrev.map _ (fun i j h => h)

/-- The ranked score sequence is a permutation of the vector of row averages. -/
lemma descendingScores_perm (g : List (List ℚ)) :
    (descendingScores g).Perm (student_averages g) := by
  have h1 : (rankedIndices g).Perm (List.range g.length) :=
    (List.reverse_perm _).trans (List.perm_insertionSort _ _)
  have h2 := h1.map (fun i => (student_averages g).getD i 0)
  have h3 : g.length = (student_averages g).length := (List.length_map _ _).symm
  rw [descendingScores]
  refine h2.trans ?_
  rw [h3, map_range_getD]

/-- Slicing commutes with mapping for the Python a[-n:] slice. -/
lemma pySliceLast_map {α β : Type} (f : α → β) (n : ℕ) (l : List α) :
    (pySliceLast n l).map f = pySliceLast n (l.map f) := by
  rw [pySliceLast, pySliceLast]
  split_ifs with h
  · rfl
  · rw [List.map_drop, List.length_map]

/-- In a descending list, every entry of the first k positions bounds every entry of
the last k positions from above, provided the two slices do not overlap. -/
lemma take_ge_slice_last {D : List ℚ} {k : ℕ}
    (hpair : List.Pairwise (fun a b => b ≤ a) D) (hk : 2 * k ≤ D.length) :
    ∀ x ∈ D.take k, ∀ y ∈ pySliceLast k D, y ≤ x := by
  rcases Nat.eq_zero_or_pos k with rfl | hkpos
  · intro x hx
    simp at hx
  intro x hx y hy
  have hD : D.take k ++ D.drop k = D := List.take_append_drop k D
  have hpair2 : List.Pairwise (fun a b => b ≤ a) (D.take k ++ D.drop k) := by
    rw [hD]
    exact hpair
  have hcross := (List.pairwise_append.mp hpair2).2.2
  have hysub : y ∈ D.drop k := by
    have h2 : (D.drop k).drop (D.length - k - k) = D.drop (D.length - k) := by
      rw [List.drop_drop]
      congr 1
      omega
    have h3 : pySliceLast k D = (D.drop k).drop (D.length - k - k) := by
      rw [pySliceLast, if_neg (Nat.pos_iff_ne_zero.mp hkpos), ← h2]
    exact List.drop_subset _ _ (h3 ▸ hy)
  exact hcross x hx y hysub

/-- C1: rank_students computes each average as the row-wise mean of the ten columns,
the ranked score sequence is a descending-sorted permutation of the averages,
top_students and bottom_students are its first and last top_n entries, top_students has
length min top_n N, every top score bounds every bottom score when 2 * top_n ≤ N, and
when N < top_n the call still returns (with both slices holding all N entries). -/
theorem C1_rank_students (ids : List ℤ) (g : List (List ℚ)) (k : ℕ)
    (h10 : ∀ r ∈ g, r.length = 10) :
    (rank_students ids g k).averages = g.map (fun r => r.sum / 10) ∧
    List.Pairwise (fun a b => b ≤ a) (descendingScores g) ∧
    (descendingScores g).Perm (rank_students ids g k).averages ∧
    (rank_students ids g k).top_scores = (descendingScores g).take k ∧
    (rank_students ids g k).bottom_scores = pySliceLast k (descendingScores g) ∧
    (rank_students ids g k).top_scores.length = min k g.length ∧
    (2 * k ≤ g.length →
      ∀ x ∈ (rank_students ids g k).top_scores,
        ∀ y ∈ (rank_students ids g k).bottom_scores, y ≤ x) ∧
    (g.length < k →
      (rank_students ids g k).top_scores.length = g.length ∧
      (rank_students ids g k).bottom_scores.length = g.length) := by
  have havg : (rank_students ids g k).averages = g.map (fun r => r.sum / 10) := by
    show student_averages g = _
    simp only [student_averages]
    refine List.map_congr_left ?_
    intro r hr
    simp only [npMean]
    rw [h10 r hr]
    norm_num
  have htop : (rank_students ids g k).top_scores = (descendingScores g).take k := by
    show ((rankedIndices g).take k).map _ = _
    rw [descendingScores, List.map_take]
  have hbot : (rank_students ids g k).bottom_scores =
      pySliceLast k (descendingScores g) := by
    show (pySliceLast k (rankedIndices g)).map _ = _
    rw [descendingScores, pySliceLast_map]
  refine ⟨havg, descendingScores_sorted g, ?_, htop, hbot, ?_, ?_, ?_⟩
  · have heq : (rank_students ids g k).averages = student_averages g := rfl
    rw [heq]
    exact descendingScores_perm g
  · rw [htop, List.length_take, length_descendingScores]
  · intro hk x hx y hy
    rw [htop] at hx
    rw [hbot] at hy
    exact take_ge_slice_last (descendingScores_sorted g)
      (by rw [length_descendingScores]; exact hk) x hx y hy
  · intro hlt
    constructor
    · rw [htop, List.length_take, length_descendingScores]
      omega
    · rw [hbot, pySliceLast, if_neg (by omega), length_descendingScores,
        List.length_drop, length_descendingScores]
      omega

/-- Witness for C1 at a concrete two-student dataset with top_n 1. -/
theorem C1_rank_students_witness :
    (∀ r ∈ [[(90 : ℚ), 90, 90, 90, 90, 95, 95, 95, 95, 95],
            [(40 : ℚ), 40, 40, 40, 40, 30, 30, 30, 30, 30]], r.length = 10) ∧
    ((rank_students [1, 2]
        [[(90 : ℚ), 90, 90, 90, 90, 95, 95, 95, 95, 95],
         [(40 : ℚ), 40, 40, 40, 40, 30, 30, 30, 30, 30]] 1).averages =
      ([[(90 : ℚ), 90, 90, 90, 90, 95, 95, 95, 95, 95],
        [(40 : ℚ), 40, 40, 40, 40, 30, 30, 30, 30, 30]] :
          List (List ℚ)).map (fun r => r.sum / 10) ∧
    List.Pairwise (fun a b => b ≤ a) (descendingScores
      [[(90 : ℚ), 90, 90, 90, 90, 95, 95, 95, 95, 95],
       [(40 : ℚ), 40, 40, 40, 40, 30, 30, 30, 30, 30]]) ∧
    (descendingScores
      [[(90 : ℚ), 90, 90, 90, 90, 95, 95, 95, 95, 95],
       [(40 : ℚ), 40, 40, 40, 40, 30, 30, 30, 30, 30]]).Perm
      (rank_students [1, 2]
        [[(90 : ℚ), 90, 90, 90, 90, 95, 95, 95, 95, 95],
         [(40 : ℚ), 40, 40, 40, 40, 30, 30, 30, 30, 30]] 1).averages ∧
    (rank_students [1, 2]
      [[(90 : ℚ), 90, 90, 90, 90, 95, 95, 95, 95, 95],
       [(40 : ℚ), 40, 40, 40, 40, 30, 30, 30, 30, 30]] 1).top_scores =
      (descendingScores
        [[(90 : ℚ), 90, 90, 90, 90, 95, 95, 95, 95, 95],
         [(40 : ℚ), 40, 40, 40, 40, 30, 30, 30, 30, 30]]).take 1 ∧
    (rank_students [1, 2]
      [[(90 : ℚ), 90, 90, 90, 90, 95, 95, 95, 95, 95],
       [(40 : ℚ), 40, 40, 40, 40, 30, 30, 30, 30, 30]] 1).bottom_scores =
      pySliceLast 1 (descendingScores
        [[(90 : ℚ), 90, 90, 90, 90, 95, 95, 95, 95, 95],
         [(40 : ℚ), 40, 40, 40, 40, 30, 30, 30, 30, 30]]) ∧
    (rank_students [1, 2]
      [[(90 : ℚ), 90, 90, 90, 90, 95, 95, 95, 95, 95],
       [(40 : ℚ), 40, 40, 40, 40, 30, 30, 30, 30, 30]] 1).top_scores.length =
      min 1 ([[(90 : ℚ), 90, 90, 90, 90, 95, 95, 95, 95, 95],
        [(40 : ℚ), 40, 40, 40, 40, 30, 30, 30, 30, 30]] : List (List ℚ)).length ∧
    (2 * 1 ≤ ([[(90 : ℚ), 90, 90, 90, 90, 95, 95, 95, 95, 95],
        [(40 : ℚ), 40, 40, 40, 40, 30, 30, 30, 30, 30]] : List (List ℚ)).length →
      ∀ x ∈ (rank_students [1, 2]
        [[(90 : ℚ), 90, 90, 90, 90, 95, 95, 95, 95, 95],
         [(40 : ℚ), 40, 40, 40, 40, 30, 30, 30, 30, 30]] 1).top_scores,
        ∀ y ∈ (rank_students [1, 2]
          [[(90 : ℚ), 90, 90, 90, 90, 95, 95, 95, 95, 95],
           [(40 : ℚ), 40, 40, 40, 40, 30, 30, 30, 30, 30]] 1).bottom_scores,
          y ≤ x) ∧
    (([[(90 : ℚ), 90, 90, 90, 90, 95, 95, 95, 95, 95],
       [(40 : ℚ), 40, 40, 40, 40, 30, 30, 30, 30, 30]] : List (List ℚ)).length < 1 →
      (rank_students [1, 2]
        [[(90 : ℚ), 90, 90, 90, 90, 95, 95, 95, 95, 95],
         [(40 : ℚ), 40, 40, 40, 40, 30, 30, 30, 30, 30]] 1).top_scores.length =
        ([[(90 : ℚ), 90, 90, 90, 90, 95, 95, 95, 95, 95],
          [(40 : ℚ), 40, 40, 40, 40, 30, 30, 30, 30, 30]] :
            List (List ℚ)).length ∧
      (rank_students [1, 2]
        [[(90 : ℚ), 90, 90, 90, 90, 95, 95, 95, 95, 95],
         [(40 : ℚ), 40, 40, 40, 40, 30, 30, 30, 30, 30]] 1).bottom_scores.length =
        ([[(90 : ℚ), 90, 90, 90, 90, 95, 95, 95, 95, 95],
          [(40 : ℚ), 40, 40, 40, 40, 30, 30, 30, 30, 30]] :
            List (List ℚ)).length)) :=
  ⟨by decide, C1_rank_students [1, 2] _ 1 (by decide)⟩

/-- One pass of the np.argmin scan: i is the position of the head of the remaining
list, bi and bv the best index and value so far; numpy keeps the first index attaining
the minimum, so only a strictly smaller value displaces the best. -/
def argminGo : ℕ → ℕ → ℚ → List ℚ → ℕ × ℚ
  | _, bi, bv, [] => (bi, bv)
  | i, bi, bv, x :: xs =>
    if x < bv then argminGo (i + 1) i x xs else argminGo (i + 1) bi bv xs

/-- The np.argmin reduction over one row. numpy raises on an empty row; the rows here
always have ten entries. -/
def rowArgmin (r : List ℚ) : ℕ :=
  match r with
  | [] => 0
  | x :: xs => (argminGo 1 0 x xs).1

/-- The value component of the argmin scan is the min-fold of the remaining list. -/
lemma argminGo_val (xs : List ℚ) : ∀ (i bi : ℕ) (bv : ℚ),
    (argminGo i bi bv xs).2 = xs.foldl min bv := by
  induction xs with
  | nil => intro i bi bv; rfl
  | cons x t ih =>
    intro i bi bv
    by_cases hlt : x < bv
    · rw [show argminGo i bi bv (x :: t) = argminGo (i + 1) i x t from by
        simp [argminGo, hlt]]
      rw [ih, List.foldl_cons]
      congr 1
      exact (min_eq_right hlt.le).symm
    · rw [show argminGo i bi bv (x :: t) = argminGo (i + 1) bi bv t from by
        simp [argminGo, hlt]]
      rw [ih, List.foldl_cons]
      congr 1
      exact (min_eq_left (le_of_not_lt hlt)).symm

/-- The index component of the argmin scan is either the seed or an offset into the
remaining list, and in each case it points at the value component. -/
lemma argminGo_idx (xs : List ℚ) : ∀ (i bi : ℕ) (bv : ℚ),
    ((argminGo i bi bv xs).1 = bi ∧ (argminGo i bi bv xs).2 = bv) ∨
      (∃ j, j < xs.length ∧ (argminGo i bi bv xs).1 = i + j ∧
        (argminGo i bi bv xs).2 = xs.getD j 0) := by
  induction xs with
  | nil => intro i bi bv; exact Or.inl ⟨rfl, rfl⟩
  | cons x t ih =>
    intro i bi bv
    by_cases hlt : x < bv
    · rw [show argminGo i bi bv (x :: t) = argminGo (i + 1) i x t from by
        simp [argminGo, hlt]]
      rcases ih (i + 1) i x with ⟨h1, h2⟩ | ⟨j, hj, h1, h2⟩
      · exact Or.inr ⟨0, by simp, by omega, by simpa using h2⟩
      · refine Or.inr ⟨j + 1, by simpa using hj, by omega, ?_⟩
        rw [h2, List.getD_cons_succ]
    · rw [show argminGo i bi bv (x :: t) = argminGo (i + 1) bi bv t from by
        simp [argminGo, hlt]]
      rcases ih (i + 1) bi bv with ⟨h1, h2⟩ | ⟨j, hj, h1, h2⟩
      · exact Or.inl ⟨h1, h2⟩
      · refine Or.inr ⟨j + 1, by simpa using hj, by omega, ?_⟩
        rw [h2, List.getD_cons_succ]

/-- On a nonempty row, rowArgmin is a position inside the row holding the row
minimum. -/
lemma rowArgmin_spec (r : List ℚ) (h : r ≠ []) :
    rowArgmin r < r.length ∧ r.getD (rowArgmin r) 0 = npMin r := by
  cases r with
  | nil => exact absurd rfl h
  | cons x xs =>
    have hval : (argminGo 1 0 x xs).2 = npMin (x :: xs) := argminGo_val xs 1 0 x
    rcases argminGo_idx xs 1 0 x with ⟨h1, h2⟩ | ⟨j, hj, h1, h2⟩
    · constructor
      · rw [rowArgmin, h1]
        simp
      · rw [rowArgmin, h1, List.getD_cons_zero]
        exact h2.symm.trans hval
    · constructor
      · rw [rowArgmin, h1]
        simp only [List.length_cons]
        omega
      · rw [rowArgmin, h1, show 1 + j = j + 1 from by omega, List.getD_cons_succ]
        exact h2.symm.trans hval

/-- Filtering the zip of two equal-length lists by a predicate on the second component
selects as many entries as the predicate counts on the second list. -/
lemma zip_filter_snd_length {α β : Type} (as : List α) (bs : List β)
    (p : β → Bool) (h : as.length = bs.length) :
    ((as.zip bs).filter (fun q => p q.2)).length = bs.countP p := by
  induction as generalizing bs with
  | nil =>
    have : bs = [] := by
      have := h
      simp only [List.length_nil] at this
      exact (List.eq_nil_of_length_eq_zero this.symm)
    subst this
    rfl
  | cons a as ih =>
    cases bs with
    | nil => simp at h
    | cons b bs =>
      have hlen : as.length = bs.length := by
        simp only [List.length_cons] at h
        omega
      simp only [List.zip_cons_cons, List.filter_cons, List.countP_cons]
      by_cases hp : p b = true
      · rw [if_pos hp, if_pos hp, List.length_cons, ih bs hlen]
      · rw [if_neg hp, if_neg hp, ih bs hlen]
        omega

/-- Zipping four maps over one list into the map of the tupling function. -/
lemma zip_map4 {α β γ δ ε : Type} (l : List α) (fa : α → β) (fb : α → γ)
    (fc : α → δ) (fd : α → ε) :
    (l.map fa).zip ((l.map fb).zip ((l.map fc).zip (l.map fd))) =
      l.map (fun x => (fa x, (fb x, (fc x, fd x)))) := by
  induction l with
  | nil => rfl
  | cons a t ih => simp [List.zip_cons_cons, ih]

/-- Result record of StudentAnalyzer.identify_at_risk. -/
structure AtRisk where
  count : ℕ
  ids : List ℤ
  averages : List ℚ
  weakest_subject_idx : List ℕ
  weakest_scores : List ℚ

/-- StudentAnalyzer.identify_at_risk: flag the rows whose row mean is strictly below
the threshold; count is np.sum of the mask and the four arrays index the flagged
students in row order. The argmin and min of the flagged block are taken per row; when
no row is flagged the block is empty and the arrays fall back to empty, matching the
size guard in the source. -/
def identify_at_risk (ids : List ℤ) (g : List (List ℚ)) (t : ℚ) : AtRisk :=
  let flagged := (ids.zip g).filter (fun p => decide (npMean p.2 < t))
  { count := g.countP (fun r => decide (npMean r < t))
    ids := flagged.map (fun p => p.1)
    averages := flagged.map (fun p => npMean p.2)
    weakest_subject_idx := flagged.map (fun p => rowArgmin p.2)
    weakest_scores := flagged.map (fun p => npMin p.2) }

/-- C2: identify_at_risk returns exactly the students whose ten-column row average is
strictly below the threshold, in row order and in equal-length arrays; for each flagged
student the weakest subject index is a column position (0-9) holding the row minimum
and the weakest score is that minimum; and when no student is below the threshold the
count is 0 and every output array is empty, without raising. -/
theorem C2_identify_at_risk (ids : List ℤ) (g : List (List ℚ)) (t : ℚ)
    (hlen : ids.length = g.length) (h10 : ∀ r ∈ g, r.length = 10) :
    (identify_at_risk ids g t).count = g.countP (fun r => decide (npMean r < t)) ∧
    ((identify_at_risk ids g t).ids.length = (identify_at_risk ids g t).count ∧
      (identify_at_risk ids g t).averages.length = (identify_at_risk ids g t).count ∧
      (identify_at_risk ids g t).weakest_subject_idx.length =
        (identify_at_risk ids g t).count ∧
      (identify_at_risk ids g t).weakest_scores.length =
        (identify_at_risk ids g t).count) ∧
    (∀ i, i < g.length → npMean (g.getD i []) < t →
      (ids.getD i 0, (npMean (g.getD i []),
        (rowArgmin (g.getD i []), npMin (g.getD i [])))) ∈
        (identify_at_risk ids g t).ids.zip ((identify_at_risk ids g t).averages.zip
          ((identify_at_risk ids g t).weakest_subject_idx.zip
            (identify_at_risk ids g t).weakest_scores))) ∧
    (∀ q ∈ (identify_at_risk ids g t).ids.zip
        ((identify_at_risk ids g t).averages.zip
          ((identify_at_risk ids g t).weakest_subject_idx.zip
            (identify_at_risk ids g t).weakest_scores)),
      ∃ i, i < g.length ∧ npMean (g.getD i []) < t ∧
        q = (ids.getD i 0, (npMean (g.getD i []),
          (rowArgmin (g.getD i []), npMin (g.getD i []))))) ∧
    (∀ r ∈ g, rowArgmin r < 10 ∧ r.getD (rowArgmin r) 0 = npMin r ∧
      ∀ x ∈ r, npMin r ≤ x) ∧
    ((∀ r ∈ g, ¬ npMean r < t) →
      (identify_at_risk ids g t).count = 0 ∧ (identify_at_risk ids g t).ids = [] ∧
      (identify_at_risk ids g t).averages = [] ∧
      (identify_at_risk ids g t).weakest_subject_idx = [] ∧
      (identify_at_risk ids g t).weakest_scores = []) := by
  have hids : (identify_at_risk ids g t).ids =
      ((ids.zip g).filter (fun p => decide (npMean p.2 < t))).map (fun p => p.1) := rfl
  have havgs : (identify_at_risk ids g t).averages =
      ((ids.zip g).filter (fun p => decide (npMean p.2 < t))).map
        (fun p => npMean p.2) := rfl
  have hwidx : (identify_at_risk ids g t).weakest_subject_idx =
      ((ids.zip g).filter (fun p => decide (npMean p.2 < t))).map
        (fun p => rowArgmin p.2) := rfl
  have hwsc : (identify_at_risk ids g t).weakest_scores =
      ((ids.zip g).filter (fun p => decide (npMean p.2 < t))).map
        (fun p => npMin p.2) := rfl
  have hquad : (identify_at_risk ids g t).ids.zip
      ((identify_at_risk ids g t).averages.zip
        ((identify_at_risk ids g t).weakest_subject_idx.zip
          (identify_at_risk ids g t).weakest_scores)) =
      ((ids.zip g).filter (fun p => decide (npMean p.2 < t))).map
        (fun p => (p.1, (npMean p.2, (rowArgmin p.2, npMin p.2)))) := by
    rw [hids, havgs, hwidx, hwsc]
    exact zip_map4 _ _ _ _ _
  have hcount : (identify_at_risk ids g t).count =
      g.countP (fun r => decide (npMean r < t)) := rfl
  refine ⟨rfl, ⟨?_, ?_, ?_, ?_⟩, ?_, ?_, ?_, ?_⟩
  · rw [hids, List.length_map, hcount]
    exact zip_filter_snd_length ids g (fun r => decide (npMean r < t)) hlen
  · rw [havgs, List.length_map, hcount]
    exact zip_filter_snd_length ids g (fun r => decide (npMean r < t)) hlen
  · rw [hwidx, List.length_map, hcount]
    exact zip_filter_snd_length ids g (fun r => decide (npMean r < t)) hlen
  · rw [hwsc, List.length_map, hcount]
    exact zip_filter_snd_length ids g (fun r => decide (npMean r < t)) hlen
  · intro i hi hit
    have hi2 : i < ids.length := by
      rw [hlen]
      exact hi
    have hiz : i < (ids.zip g).length := by
      rw [List.length_zip]
      omega
    have hel : (ids.zip g)[i] = (ids[i], g[i]) := List.getElem_zip
    have hmem : (ids[i], g[i]) ∈ ids.zip g := hel ▸ List.getElem_mem hiz
    have hgd : g.getD i [] = g[i] := List.getD_eq_getElem g [] hi
    have hidd : ids.getD i 0 = ids[i] := List.getD_eq_getElem ids 0 hi2
    have hpred : (fun p : ℤ × List ℚ => decide (npMean p.2 < t))
        (ids[i], g[i]) = true := by
      have hit2 : npMean (g[i]) < t := hgd ▸ hit
      exact decide_eq_true hit2
    have hmemf : (ids[i], g[i]) ∈
        (ids.zip g).filter (fun p => decide (npMean p.2 < t)) :=
      List.mem_filter.mpr ⟨hmem, hpred⟩
    rw [hquad, hidd, hgd]
    exact List.mem_map.mpr ⟨(ids[i], g[i]), hmemf, rfl⟩
  · intro q hq
    rw [hquad] at hq
    obtain ⟨p, hpF, rfl⟩ := List.mem_map.mp hq
    obtain ⟨hpz, hpred⟩ := List.mem_filter.mp hpF
    obtain ⟨i, hiz, hpi⟩ := List.mem_iff_getElem.mp hpz
    have hi : i < g.length := by
      rw [List.length_zip] at hiz
      omega
    have hi2 : i < ids.length := by
      rw [hlen]
      exact hi
    have hel : (ids.zip g)[i] = (ids[i], g[i]) := List.getElem_zip
    have hp : p = (ids[i], g[i]) := by rw [← hpi, hel]
    subst hp
    have hgd : g.getD i [] = g[i] := List.getD_eq_getElem g [] hi
    have hidd : ids.getD i 0 = ids[i] := List.getD_eq_getElem ids 0 hi2
    refine ⟨i, hi, ?_, ?_⟩
    · rw [hgd]
      exact of_decide_eq_true hpred
    · rw [hidd, hgd]
  · intro r hr
    have hne : r ≠ [] := by
      intro hcon
      have h0 := h10 r hr
      rw [hcon] at h0
      simp at h0
    obtain ⟨ha, hb⟩ := rowArgmin_spec r hne
    rw [h10 r hr] at ha
    exact ⟨ha, hb, fun x hx => npMin_le x hx⟩
  · intro hnone
    have hcnt : g.countP (fun r => decide (npMean r < t)) = 0 :=
      List.countP_eq_zero.mpr (fun r hr => by simp [hnone r hr])
    have hfil : (ids.zip g).filter (fun p => decide (npMean p.2 < t)) = [] :=
      List.filter_eq_nil_iff.mpr (fun p hp => by
        rcases p with ⟨a, b⟩
        have hb := (List.of_mem_zip hp).2
        simp [hnone b hb])
    refine ⟨hcnt, ?_, ?_, ?_, ?_⟩
    · rw [hids, hfil]
      rfl
    · rw [havgs, hfil]
      rfl
    · rw [hwidx, hfil]
      rfl
    · rw [hwsc, hfil]
      rfl

/-- Witness for C2 at a concrete one-student dataset below the threshold 50. -/
theorem C2_identify_at_risk_witness :
    ([7] : List ℤ).length =
      ([[(40 : ℚ), 40, 40, 40, 40, 30, 30, 30, 30, 30]] : List (List ℚ)).length ∧
    (∀ r ∈ [[(40 : ℚ), 40, 40, 40, 40, 30, 30, 30, 30, 30]], r.length = 10) ∧
    ((identify_at_risk [7] [[(40 : ℚ), 40, 40, 40, 40, 30, 30, 30, 30, 30]] 50).count =
      ([[(40 : ℚ), 40, 40, 40, 40, 30, 30, 30, 30, 30]] : List (List ℚ)).countP
        (fun r => decide (npMean r < 50)) ∧
    ((identify_at_risk [7]
        [[(40 : ℚ), 40, 40, 40, 40, 30, 30, 30, 30, 30]] 50).ids.length =
      (identify_at_risk [7]
        [[(40 : ℚ), 40, 40, 40, 40, 30, 30, 30, 30, 30]] 50).count ∧
      (identify_at_risk [7]
        [[(40 : ℚ), 40, 40, 40, 40, 30, 30, 30, 30, 30]] 50).averages.length =
      (identify_at_risk [7]
        [[(40 : ℚ), 40, 40, 40, 40, 30, 30, 30, 30, 30]] 50).count ∧
      (identify_at_risk [7]
        [[(40 : ℚ), 40, 40, 40, 40, 30, 30, 30, 30, 30]]
          50).weakest_subject_idx.length =
      (identify_at_risk [7]
        [[(40 : ℚ), 40, 40, 40, 40, 30, 30, 30, 30, 30]] 50).count ∧
      (identify_at_risk [7]
        [[(40 : ℚ), 40, 40, 40, 40, 30, 30, 30, 30, 30]] 50).weakest_scores.length =
      (identify_at_risk [7]
        [[(40 : ℚ), 40, 40, 40, 40, 30, 30, 30, 30, 30]] 50).count) ∧
    (∀ i, i < ([[(40 : ℚ), 40, 40, 40, 40, 30, 30, 30, 30, 30]] :
        List (List ℚ)).length →
      npMean (([[(40 : ℚ), 40, 40, 40, 40, 30, 30, 30, 30, 30]] :
        List (List ℚ)).getD i []) < 50 →
      (([7] : List ℤ).getD i 0,
        (npMean (([[(40 : ℚ), 40, 40, 40, 40, 30, 30, 30, 30, 30]] :
          List (List ℚ)).getD i []),
        (rowArgmin (([[(40 : ℚ), 40, 40, 40, 40, 30, 30, 30, 30, 30]] :
          List (List ℚ)).getD i []),
         npMin (([[(40 : ℚ), 40, 40, 40, 40, 30, 30, 30, 30, 30]] :
          List (List ℚ)).getD i [])))) ∈
        (identify_at_risk [7]
          [[(40 : ℚ), 40, 40, 40, 40, 30, 30, 30, 30, 30]] 50).ids.zip
          ((identify_at_risk [7]
            [[(40 : ℚ), 40, 40, 40, 40, 30, 30, 30, 30, 30]] 50).averages.zip
            ((identify_at_risk [7]
              [[(40 : ℚ), 40, 40, 40, 40, 30, 30, 30, 30, 30]]
                50).weakest_subject_idx.zip
              (identify_at_risk [7]
                [[(40 : ℚ), 40, 40, 40, 40, 30, 30, 30, 30, 30]]
                  50).weakest_scores))) ∧
    (∀ q ∈ (identify_at_risk [7]
        [[(40 : ℚ), 40, 40, 40, 40, 30, 30, 30, 30, 30]] 50).ids.zip
        ((identify_at_risk [7]
          [[(40 : ℚ), 40, 40, 40, 40, 30, 30, 30, 30, 30]] 50).averages.zip
          ((identify_at_risk [7]
            [[(40 : ℚ), 40, 40, 40, 40, 30, 30, 30, 30, 30]]
              50).weakest_subject_idx.zip
            (identify_at_risk [7]
              [[(40 : ℚ), 40, 40, 40, 40, 30, 30, 30, 30, 30]]
                50).weakest_scores)),
      ∃ i, i < ([[(40 : ℚ), 40, 40, 40, 40, 30, 30, 30, 30, 30]] :
          List (List ℚ)).length ∧
        npMean (([[(40 : ℚ), 40, 40, 40, 40, 30, 30, 30, 30, 30]] :
          List (List ℚ)).getD i []) < 50 ∧
        q = (([7] : List ℤ).getD i 0,
          (npMean (([[(40 : ℚ), 40, 40, 40, 40, 30, 30, 30, 30, 30]] :
            List (List ℚ)).getD i []),
          (rowArgmin (([[(40 : ℚ), 40, 40, 40, 40, 30, 30, 30, 30, 30]] :
            List (List ℚ)).getD i []),
           npMin (([[(40 : ℚ), 40, 40, 40, 40, 30, 30, 30, 30, 30]] :
            List (List ℚ)).getD i []))))) ∧
    (∀ r ∈ [[(40 : ℚ), 40, 40, 40, 40, 30, 30, 30, 30, 30]],
      rowArgmin r < 10 ∧ r.getD (rowArgmin r) 0 = npMin r ∧
      ∀ x ∈ r, npMin r ≤ x) ∧
    ((∀ r ∈ [[(40 : ℚ), 40, 40, 40, 40, 30, 30, 30, 30, 30]], ¬ npMean r < 50) →
      (identify_at_risk [7]
        [[(40 : ℚ), 40, 40, 40, 40, 30, 30, 30, 30, 30]] 50).count = 0 ∧
      (identify_at_risk [7]
        [[(40 : ℚ), 40, 40, 40, 40, 30, 30, 30, 30, 30]] 50).ids = [] ∧
      (identify_at_risk [7]
        [[(40 : ℚ), 40, 40, 40, 40, 30, 30, 30, 30, 30]] 50).averages = [] ∧
      (identify_at_risk [7]
        [[(40 : ℚ), 40, 40, 40, 40, 30, 30, 30, 30, 30]]
          50).weakest_subject_idx = [] ∧
      (identify_at_risk [7]
        [[(40 : ℚ), 40, 40, 40, 40, 30, 30, 30, 30, 30]] 50).weakest_scores = [])) :=
  ⟨by decide, by decide,
    C2_identify_at_risk [7] [[(40 : ℚ), 40, 40, 40, 40, 30, 30, 30, 30, 30]] 50
      (by decide) (by decide)⟩

/-- Zipping the component maps of a pair list reassembles the list. -/
lemma zip_fst_snd {α β : Type} (l : List (α × β)) :
    (l.map (fun p => p.1)).zip (l.map (fun p => p.2)) = l := by
  induction l with
  | nil => rfl
  | cons a tl ih => simp [List.zip_cons_cons, ih]

/-- One group of StudentAnalyzer.track_improvement output (improved or declined). -/
structure ImpGroup where
  count : ℕ
  ids : List ℤ
  delta : List ℚ

/-- Result record of StudentAnalyzer.track_improvement. -/
structure Improvement where
  improved : ImpGroup
  declined : ImpGroup
  all_deltas : List ℚ

/-- The per-student improvement delta: the mean of the last five columns minus the mean
of the first five (np.mean over axis 1 of the two column slices). -/
def studentDelta (r : List ℚ) : ℚ := npMean (r.drop 5) - npMean (r.take 5)

/-- StudentAnalyzer.track_improvement: compute each student delta, then flag with the
masks delta strictly greater than the threshold (improved) and delta strictly less than
its negation (declined), indexing ids and deltas by those masks. -/
def track_improvement (ids : List ℤ) (g : List (List ℚ)) (t : ℚ) : Improvement :=
  let deltas := g.map studentDelta
  let zi := ids.zip deltas
  { improved :=
      { count := deltas.countP (fun d => decide (t < d))
        ids := (zi.filter (fun p => decide (t < p.2))).map (fun p => p.1)
        delta := (zi.filter (fun p => decide (t < p.2))).map (fun p => p.2) }
    declined :=
      { count := deltas.countP (fun d => decide (d < -t))
        ids := (zi.filter (fun p => decide (p.2 < -t))).map (fun p => p.1)
        delta := (zi.filter (fun p => decide (p.2 < -t))).map (fun p => p.2) }
    all_deltas := deltas }

/-- C3: track_improvement computes every student delta as semester-2 mean minus
semester-1 mean, all_deltas always has length N, improved holds exactly the students
with delta strictly above the threshold and declined exactly those strictly below its
negation, a student with equal semester means has delta exactly 0 and (for a
nonnegative threshold) lands in neither group, and a student with delta exactly minus
the threshold is not flagged declined. -/
theorem C3_track_improvement (ids : List ℤ) (g : List (List ℚ)) (t : ℚ)
    (hlen : ids.length = g.length) (_h10 : ∀ r ∈ g, r.length = 10) :
    (track_improvement ids g t).all_deltas.length = g.length ∧
    (∀ i, i < g.length → (track_improvement ids g t).all_deltas.getD i 0 =
      npMean ((g.getD i []).drop 5) - npMean ((g.getD i []).take 5)) ∧
    (∀ r : List ℚ, npMean (r.drop 5) = npMean (r.take 5) → studentDelta r = 0) ∧
    ((track_improvement ids g t).improved.ids.length =
        (track_improvement ids g t).improved.count ∧
      (track_improvement ids g t).improved.delta.length =
        (track_improvement ids g t).improved.count ∧
      (track_improvement ids g t).declined.ids.length =
        (track_improvement ids g t).declined.count ∧
      (track_improvement ids g t).declined.delta.length =
        (track_improvement ids g t).declined.count) ∧
    (∀ i, i < g.length →
      (t < (track_improvement ids g t).all_deltas.getD i 0 ↔
        (ids.getD i 0, (track_improvement ids g t).all_deltas.getD i 0) ∈
          (track_improvement ids g t).improved.ids.zip
            (track_improvement ids g t).improved.delta)) ∧
    (∀ i, i < g.length →
      ((track_improvement ids g t).all_deltas.getD i 0 < -t ↔
        (ids.getD i 0, (track_improvement ids g t).all_deltas.getD i 0) ∈
          (track_improvement ids g t).declined.ids.zip
            (track_improvement ids g t).declined.delta)) ∧
    (0 ≤ t → ∀ i, i < g.length →
      (track_improvement ids g t).all_deltas.getD i 0 = 0 →
      (ids.getD i 0, (track_improvement ids g t).all_deltas.getD i 0) ∉
        (track_improvement ids g t).improved.ids.zip
          (track_improvement ids g t).improved.delta ∧
      (ids.getD i 0, (track_improvement ids g t).all_deltas.getD i 0) ∉
        (track_improvement ids g t).declined.ids.zip
          (track_improvement ids g t).declined.delta) ∧
    (∀ i, i < g.length →
      (track_improvement ids g t).all_deltas.getD i 0 = -t →
      (ids.getD i 0, (track_improvement ids g t).all_deltas.getD i 0) ∉
        (track_improvement ids g t).declined.ids.zip
          (track_improvement ids g t).declined.delta) := by
  have hdel : (track_improvement ids g t).all_deltas = g.map studentDelta := rfl
  have hlen2 : ids.length = (g.map studentDelta).length := by
    rw [List.length_map]
    exact hlen
  have himp : (track_improvement ids g t).improved.ids.zip
      (track_improvement ids g t).improved.delta =
      (ids.zip (g.map studentDelta)).filter (fun p => decide (t < p.2)) :=
    zip_fst_snd _
  have hdec : (track_improvement ids g t).declined.ids.zip
      (track_improvement ids g t).declined.delta =
      (ids.zip (g.map studentDelta)).filter (fun p => decide (p.2 < -t)) :=
    zip_fst_snd _
  have hmemfwd : ∀ (P : ℚ → Bool) (i : ℕ), i < g.length →
      P ((g.map studentDelta).getD i 0) = true →
      (ids.getD i 0, (g.map studentDelta).getD i 0) ∈
        (ids.zip (g.map studentDelta)).filter (fun p => P p.2) := by
    intro P i hi hP
    have hi2 : i < ids.length := by
      rw [hlen]
      exact hi
    have hid : i < (g.map studentDelta).length := by
      rw [List.length_map]
      exact hi
    have hiz : i < (ids.zip (g.map studentDelta)).length := by
      rw [List.length_zip]
      omega
    have hel : (ids.zip (g.map studentDelta))[i] =
        (ids[i], (g.map studentDelta)[i]) := List.getElem_zip
    have hmem : (ids[i], (g.map studentDelta)[i]) ∈
        ids.zip (g.map studentDelta) := hel ▸ List.getElem_mem hiz
    have hgd : (g.map studentDelta).getD i 0 = (g.map studentDelta)[i] :=
      List.getD_eq_getElem _ 0 hid
    have hidd : ids.getD i 0 = ids[i] := List.getD_eq_getElem ids 0 hi2
    rw [hidd, hgd]
    refine List.mem_filter.mpr ⟨hmem, ?_⟩
    rw [← hgd]
    exact hP
  have hii : (track_improvement ids g t).improved.ids =
      ((ids.zip (g.map studentDelta)).filter (fun p => decide (t < p.2))).map
        (fun p => p.1) := rfl
  have hiv : (track_improvement ids g t).improved.delta =
      ((ids.zip (g.map studentDelta)).filter (fun p => decide (t < p.2))).map
        (fun p => p.2) := rfl
  have hdi : (track_improvement ids g t).declined.ids =
      ((ids.zip (g.map studentDelta)).filter (fun p => decide (p.2 < -t))).map
        (fun p => p.1) := rfl
  have hdv : (track_improvement ids g t).declined.delta =
      ((ids.zip (g.map studentDelta)).filter (fun p => decide (p.2 < -t))).map
        (fun p => p.2) := rfl
  have hci : (track_improvement ids g t).improved.count =
      (g.map studentDelta).countP (fun d => decide (t < d)) := rfl
  have hcd : (track_improvement ids g t).declined.count =
      (g.map studentDelta).countP (fun d => decide (d < -t)) := rfl
  refine ⟨by rw [hdel, List.length_map], ?_, ?_, ⟨?_, ?_, ?_, ?_⟩, ?_, ?_, ?_, ?_⟩
  · intro i hi
    rw [hdel, List.getD_eq_getElem _ 0 (by rw [List.length_map]; exact hi),
      List.getElem_map, List.getD_eq_getElem g [] hi]
    rfl
  · intro r hr
    rw [studentDelta, hr, sub_self]
  · rw [hii, List.length_map, hci]
    exact zip_filter_snd_length ids (g.map studentDelta)
      (fun d => decide (t < d)) hlen2
  · rw [hiv, List.length_map, hci]
    exact zip_filter_snd_length ids (g.map studentDelta)
      (fun d => decide (t < d)) hlen2
  · rw [hdi, List.length_map, hcd]
    exact zip_filter_snd_length ids (g.map studentDelta)
      (fun d => decide (d < -t)) hlen2
  · rw [hdv, List.length_map, hcd]
    exact zip_filter_snd_length ids (g.map studentDelta)
      (fun d => decide (d < -t)) hlen2
  · intro i hi
    rw [hdel, himp]
    constructor
    · intro hd
      exact hmemfwd (fun d => decide (t < d)) i hi (decide_eq_true hd)
    · intro hmem
      exact of_decide_eq_true (List.mem_filter.mp hmem).2
  · intro i hi
    rw [hdel, hdec]
    constructor
    · intro hd
      exact hmemfwd (fun d => decide (d < -t)) i hi (decide_eq_true hd)
    · intro hmem
      exact of_decide_eq_true (List.mem_filter.mp hmem).2
  · intro ht i hi h0
    rw [hdel] at h0
    constructor
    · rw [hdel, himp]
      intro hmem
      have h1 := of_decide_eq_true (List.mem_filter.mp hmem).2
      rw [h0] at h1
      have h2 : t < (0 : ℚ) := h1
      linarith
    · rw [hdel, hdec]
      intro hmem
      have h1 := of_decide_eq_true (List.mem_filter.mp hmem).2
      rw [h0] at h1
      have h2 : (0 : ℚ) < -t := h1
      linarith
  · intro i hi hneg
    rw [hdel] at hneg
    rw [hdel, hdec]
    intro hmem
    have h1 := of_decide_eq_true (List.mem_filter.mp hmem).2
    rw [hneg] at h1
    have h2 : -t < -t := h1
    exact absurd h2 (lt_irrefl _)

/-- Witness for C3 at a concrete two-student dataset with threshold 10: the first
student has equal semester means (delta 0), the second has delta exactly -10. -/
theorem C3_track_improvement_witness :
    ([1, 2] : List ℤ).length =
      ([[(90 : ℚ), 90, 90, 90, 90, 90, 90, 90, 90, 90],
        [(40 : ℚ), 40, 40, 40, 40, 30, 30, 30, 30, 30]] : List (List ℚ)).length ∧
    (∀ r ∈ [[(90 : ℚ), 90, 90, 90, 90, 90, 90, 90, 90, 90],
            [(40 : ℚ), 40, 40, 40, 40, 30, 30, 30, 30, 30]], r.length = 10) ∧
    ((track_improvement [1, 2]
        [[(90 : ℚ), 90, 90, 90, 90, 90, 90, 90, 90, 90],
         [(40 : ℚ), 40, 40, 40, 40, 30, 30, 30, 30, 30]] 10).all_deltas.length =
      ([[(90 : ℚ), 90, 90, 90, 90, 90, 90, 90, 90, 90],
        [(40 : ℚ), 40, 40, 40, 40, 30, 30, 30, 30, 30]] : List (List ℚ)).length ∧
    (∀ i, i < ([[(90 : ℚ), 90, 90, 90, 90, 90, 90, 90, 90, 90],
        [(40 : ℚ), 40, 40, 40, 40, 30, 30, 30, 30, 30]] : List (List ℚ)).length →
      (track_improvement [1, 2]
        [[(90 : ℚ), 90, 90, 90, 90, 90, 90, 90, 90, 90],
         [(40 : ℚ), 40, 40, 40, 40, 30, 30, 30, 30, 30]] 10).all_deltas.getD i 0 =
      npMean ((([[(90 : ℚ), 90, 90, 90, 90, 90, 90, 90, 90, 90],
        [(40 : ℚ), 40, 40, 40, 40, 30, 30, 30, 30, 30]] :
          List (List ℚ)).getD i []).drop 5) -
      npMean ((([[(90 : ℚ), 90, 90, 90, 90, 90, 90, 90, 90, 90],
        [(40 : ℚ), 40, 40, 40, 40, 30, 30, 30, 30, 30]] :
          List (List ℚ)).getD i []).take 5)) ∧
    (∀ r : List ℚ, npMean (r.drop 5) = npMean (r.take 5) → studentDelta r = 0) ∧
    ((track_improvement [1, 2]
        [[(90 : ℚ), 90, 90, 90, 90, 90, 90, 90, 90, 90],
         [(40 : ℚ), 40, 40, 40, 40, 30, 30, 30, 30, 30]] 10).improved.ids.length =
      (track_improvement [1, 2]
        [[(90 : ℚ), 90, 90, 90, 90, 90, 90, 90, 90, 90],
         [(40 : ℚ), 40, 40, 40, 40, 30, 30, 30, 30, 30]] 10).improved.count ∧
     (track_improvement [1, 2]
        [[(90 : ℚ), 90, 90, 90, 90, 90, 90, 90, 90, 90],
         [(40 : ℚ), 40, 40, 40, 40, 30, 30, 30, 30, 30]] 10).improved.delta.length =
      (track_improvement [1, 2]
        [[(90 : ℚ), 90, 90, 90, 90, 90, 90, 90, 90, 90],
         [(40 : ℚ), 40, 40, 40, 40, 30, 30, 30, 30, 30]] 10).improved.count ∧
     (track_improvement [1, 2]
        [[(90 : ℚ), 90, 90, 90, 90, 90, 90, 90, 90, 90],
         [(40 : ℚ), 40, 40, 40, 40, 30, 30, 30, 30, 30]] 10).declined.ids.length =
      (track_improvement [1, 2]
        [[(90 : ℚ), 90, 90, 90, 90, 90, 90, 90, 90, 90],
         [(40 : ℚ), 40, 40, 40, 40, 30, 30, 30, 30, 30]] 10).declined.count ∧
     (track_improvement [1, 2]
        [[(90 : ℚ), 90, 90, 90, 90, 90, 90, 90, 90, 90],
         [(40 : ℚ), 40, 40, 40, 40, 30, 30, 30, 30, 30]] 10).declined.delta.length =
      (track_improvement [1, 2]
        [[(90 : ℚ), 90, 90, 90, 90, 90, 90, 90, 90, 90],
         [(40 : ℚ), 40, 40, 40, 40, 30, 30, 30, 30, 30]] 10).declined.count) ∧
    (∀ i, i < ([[(90 : ℚ), 90, 90, 90, 90, 90, 90, 90, 90, 90],
        [(40 : ℚ), 40, 40, 40, 40, 30, 30, 30, 30, 30]] : List (List ℚ)).length →
      (10 < (track_improvement [1, 2]
        [[(90 : ℚ), 90, 90, 90, 90, 90, 90, 90, 90, 90],
         [(40 : ℚ), 40, 40, 40, 40, 30, 30, 30, 30, 30]] 10).all_deltas.getD i 0 ↔
        (([1, 2] : List ℤ).getD i 0, (track_improvement [1, 2]
          [[(90 : ℚ), 90, 90, 90, 90, 90, 90, 90, 90, 90],
           [(40 : ℚ), 40, 40, 40, 40, 30, 30, 30, 30, 30]] 10).all_deltas.getD i 0) ∈
          (track_improvement [1, 2]
            [[(90 : ℚ), 90, 90, 90, 90, 90, 90, 90, 90, 90],
             [(40 : ℚ), 40, 40, 40, 40, 30, 30, 30, 30, 30]] 10).improved.ids.zip
            (track_improvement [1, 2]
              [[(90 : ℚ), 90, 90, 90, 90, 90, 90, 90, 90, 90],
               [(40 : ℚ), 40, 40, 40, 40, 30, 30, 30, 30, 30]]
                10).improved.delta)) ∧
    (∀ i, i < ([[(90 : ℚ), 90, 90, 90, 90, 90, 90, 90, 90, 90],
        [(40 : ℚ), 40, 40, 40, 40, 30, 30, 30, 30, 30]] : List (List ℚ)).length →
      ((track_improvement [1, 2]
        [[(90 : ℚ), 90, 90, 90, 90, 90, 90, 90, 90, 90],
         [(40 : ℚ), 40, 40, 40, 40, 30, 30, 30, 30, 30]]
          10).all_deltas.getD i 0 < -10 ↔
        (([1, 2] : List ℤ).getD i 0, (track_improvement [1, 2]
          [[(90 : ℚ), 90, 90, 90, 90, 90, 90, 90, 90, 90],
           [(40 : ℚ), 40, 40, 40, 40, 30, 30, 30, 30, 30]] 10).all_deltas.getD i 0) ∈
          (track_improvement [1, 2]
            [[(90 : ℚ), 90, 90, 90, 90, 90, 90, 90, 90, 90],
             [(40 : ℚ), 40, 40, 40, 40, 30, 30, 30, 30, 30]] 10).declined.ids.zip
            (track_improvement [1, 2]
              [[(90 : ℚ), 90, 90, 90, 90, 90, 90, 90, 90, 90],
               [(40 : ℚ), 40, 40, 40, 40, 30, 30, 30, 30, 30]]
                10).declined.delta)) ∧
    ((0 : ℚ) ≤ 10 → ∀ i, i < ([[(90 : ℚ), 90, 90, 90, 90, 90, 90, 90, 90, 90],
        [(40 : ℚ), 40, 40, 40, 40, 30, 30, 30, 30, 30]] : List (List ℚ)).length →
      (track_improvement [1, 2]
        [[(90 : ℚ), 90, 90, 90, 90, 90, 90, 90, 90, 90],
         [(40 : ℚ), 40, 40, 40, 40, 30, 30, 30, 30, 30]] 10).all_deltas.getD i 0 = 0 →
      (([1, 2] : List ℤ).getD i 0, (track_improvement [1, 2]
        [[(90 : ℚ), 90, 90, 90, 90, 90, 90, 90, 90, 90],
         [(40 : ℚ), 40, 40, 40, 40, 30, 30, 30, 30, 30]] 10).all_deltas.getD i 0) ∉
        (track_improvement [1, 2]
          [[(90 : ℚ), 90, 90, 90, 90, 90, 90, 90, 90, 90],
           [(40 : ℚ), 40, 40, 40, 40, 30, 30, 30, 30, 30]] 10).improved.ids.zip
          (track_improvement [1, 2]
            [[(90 : ℚ), 90, 90, 90, 90, 90, 90, 90, 90, 90],
             [(40 : ℚ), 40, 40, 40, 40, 30, 30, 30, 30, 30]] 10).improved.delta ∧
      (([1, 2] : List ℤ).getD i 0, (track_improvement [1, 2]
        [[(90 : ℚ), 90, 90, 90, 90, 90, 90, 90, 90, 90],
         [(40 : ℚ), 40, 40, 40, 40, 30, 30, 30, 30, 30]] 10).all_deltas.getD i 0) ∉
        (track_improvement [1, 2]
          [[(90 : ℚ), 90, 90, 90, 90, 90, 90, 90, 90, 90],
           [(40 : ℚ), 40, 40, 40, 40, 30, 30, 30, 30, 30]] 10).declined.ids.zip
          (track_improvement [1, 2]
            [[(90 : ℚ), 90, 90, 90, 90, 90, 90, 90, 90, 90],
             [(40 : ℚ), 40, 40, 40, 40, 30, 30, 30, 30, 30]] 10).declined.delta) ∧
    (∀ i, i < ([[(90 : ℚ), 90, 90, 90, 90, 90, 90, 90, 90, 90],
        [(40 : ℚ), 40, 40, 40, 40, 30, 30, 30, 30, 30]] : List (List ℚ)).length →
      (track_improvement [1, 2]
        [[(90 : ℚ), 90, 90, 90, 90, 90, 90, 90, 90, 90],
         [(40 : ℚ), 40, 40, 40, 40, 30, 30, 30, 30, 30]]
          10).all_deltas.getD i 0 = -10 →
      (([1, 2] : List ℤ).getD i 0, (track_improvement [1, 2]
        [[(90 : ℚ), 90, 90, 90, 90, 90, 90, 90, 90, 90],
         [(40 : ℚ), 40, 40, 40, 40, 30, 30, 30, 30, 30]] 10).all_deltas.getD i 0) ∉
        (track_improvement [1, 2]
          [[(90 : ℚ), 90, 90, 90, 90, 90, 90, 90, 90, 90],
           [(40 : ℚ), 40, 40, 40, 40, 30, 30, 30, 30, 30]] 10).declined.ids.zip
          (track_improvement [1, 2]
            [[(90 : ℚ), 90, 90, 90, 90, 90, 90, 90, 90, 90],
             [(40 : ℚ), 40, 40, 40, 40, 30, 30, 30, 30, 30]] 10).declined.delta)) :=
  ⟨by decide, by decide,
    C3_track_improvement [1, 2]
      [[(90 : ℚ), 90, 90, 90, 90, 90, 90, 90, 90, 90],
       [(40 : ℚ), 40, 40, 40, 40, 30, 30, 30, 30, 30]] 10 (by decide) (by decide)⟩

/-- Filtering the zip of two equal-length lists by a predicate on the first component
selects as many entries as the predicate counts on the first list. -/
lemma zip_filter_fst_length {α β : Type} (as : List α) (bs : List β)
    (p : α → Bool) (h : as.length = bs.length) :
    ((as.zip bs).filter (fun q => p q.1)).length = as.countP p := by
  induction as generalizing bs with
  | nil => rfl
  | cons a as ih =>
    cases bs with
    | nil => simp at h
    | cons b bs =>
      have hlen : as.length = bs.length := by
        simp only [List.length_cons] at h
        omega
      simp only [List.zip_cons_cons, List.filter_cons, List.countP_cons]
      by_cases hp : p a = true
      · rw [if_pos hp, if_pos hp, List.length_cons, ih bs hlen]
      · rw [if_neg hp, if_neg hp, ih bs hlen]
        omega

/-- Per-section statistics record of StudentAnalyzer.analyze_sections. As with
OverallStats, the var field carries the square of the reported np.std. -/
structure SectionStats where
  count : ℕ
  avg : ℚ
  var : ℚ
  median : ℚ
  min : ℚ
  max : ℚ
deriving DecidableEq

/-- The rows belonging to one section label: the boolean mask sections == label
applied to the grade rows. -/
def sectionRows (sections : List String) (g : List (List ℚ)) (s : String) :
    List (List ℚ) :=
  ((sections.zip g).filter (fun p => p.1 == s)).map (fun p => p.2)

/-- StudentAnalyzer.analyze_sections, as the dictionary keyed by the labels np.unique
finds: looking up a label present in sections yields the statistics of the flattened
block of that group of rows, with count = np.sum of the mask over sections; any other
label is absent from the dictionary. -/
def analyze_sections (sections : List String) (g : List (List ℚ)) :
    String → Option SectionStats := fun s =>
  if s ∈ sections then
    some ⟨(sections.filter (fun x => x == s)).length,
      npMean (flatten (sectionRows sections g s)),
      npVar (flatten (sectionRows sections g s)),
      npMedian (flatten (sectionRows sections g s)),
      npMin (flatten (sectionRows sections g s)),
      npMax (flatten (sectionRows sections g s))⟩
  else none

/-- C8: analyze_sections groups rows by exact equality of the section label; every
label in sections maps to an entry whose count is the number of students carrying the
label (not the number of grades) and whose average is the mean of the full ten-column
block of the group; labels not in sections are absent; the empty dataset yields the
empty mapping; and two students in one section with all-90 and all-80 rows yield count
2 and average 85. -/
theorem C8_analyze_sections (sections : List String) (g : List (List ℚ))
    (hlen : sections.length = g.length) (h10 : ∀ r ∈ g, r.length = 10) :
    (∀ s ∈ sections, ∃ st : SectionStats,
      analyze_sections sections g s = some st ∧
      st.count = sections.countP (fun x => x == s) ∧
      st.count = (sectionRows sections g s).length ∧
      0 < st.count ∧
      st.avg * (10 * (st.count : ℚ)) = (flatten (sectionRows sections g s)).sum) ∧
    (∀ s : String, s ∉ sections → analyze_sections sections g s = none) ∧
    (∀ s : String, analyze_sections [] [] s = none) ∧
    (∃ st : SectionStats,
      analyze_sections ["A", "A"]
        [[90, 90, 90, 90, 90, 90, 90, 90, 90, 90],
         [80, 80, 80, 80, 80, 80, 80, 80, 80, 80]] "A" = some st ∧
      st.count = 2 ∧ st.avg = 85) := by
  refine ⟨?_, ?_, ?_, ?_⟩
  · intro s hs
    have hc : (sections.filter (fun x => x == s)).length =
        (sectionRows sections g s).length := by
      rw [sectionRows, List.length_map,
        zip_filter_fst_length sections g (fun x => x == s) hlen,
        List.countP_eq_length_filter]
    have hpos : 0 < (sections.filter (fun x => x == s)).length := by
      have hmem : s ∈ sections.filter (fun x => x == s) :=
        List.mem_filter.mpr ⟨hs, by simp⟩
      exact List.length_pos.mpr (List.ne_nil_of_mem hmem)
    have hrows10 : ∀ r ∈ sectionRows sections g s, r.length = 10 := by
      intro r hr
      obtain ⟨p, hpz, rfl⟩ := List.mem_map.mp hr
      rcases p with ⟨a, b⟩
      exact h10 b (List.of_mem_zip (List.mem_filter.mp hpz).1).2
    have hflatlen : (flatten (sectionRows sections g s)).length =
        10 * (sectionRows sections g s).length :=
      length_flatten_rows _ hrows10
    rw [analyze_sections, if_pos hs]
    refine ⟨_, rfl, ?_, hc, hpos, ?_⟩
    · rw [List.countP_eq_length_filter]
    · show npMean (flatten (sectionRows sections g s)) *
        (10 * (((sections.filter (fun x => x == s)).length : ℕ) : ℚ)) = _
      have h2 : (10 : ℚ) * (((sections.filter (fun x => x == s)).length : ℕ) : ℚ) =
          ((flatten (sectionRows sections g s)).length : ℚ) := by
        rw [hflatlen, hc]
        push_cast
        ring
      have h3 : ((flatten (sectionRows sections g s)).length : ℚ) ≠ 0 := by
        rw [hflatlen]
        have : 0 < (sectionRows sections g s).length := hc ▸ hpos
        have h4 : 0 < 10 * (sectionRows sections g s).length := by omega
        exact_mod_cast Nat.pos_iff_ne_zero.mp h4
      rw [h2, npMean, div_mul_cancel₀ _ h3]
  · intro s hns
    rw [analyze_sections, if_neg hns]
  · intro s
    rw [analyze_sections, if_neg (List.not_mem_nil s)]
  · refine ⟨_, rfl, rfl, ?_⟩
    show npMean (flatten (sectionRows ["A", "A"]
      [[90, 90, 90, 90, 90, 90, 90, 90, 90, 90],
       [80, 80, 80, 80, 80, 80, 80, 80, 80, 80]] "A")) = 85
    have hrows : sectionRows ["A", "A"]
        [[90, 90, 90, 90, 90, 90, 90, 90, 90, 90],
         [80, 80, 80, 80, 80, 80, 80, 80, 80, 80]] "A" =
        [[90, 90, 90, 90, 90, 90, 90, 90, 90, 90],
         [80, 80, 80, 80, 80, 80, 80, 80, 80, 80]] := by decide
    rw [hrows]
    norm_num [flatten, npMean]

/-- Witness for C8 at a concrete two-section dataset. -/
theorem C8_analyze_sections_witness :
    (["A", "B"] : List String).length =
      ([[(90 : ℚ), 90, 90, 90, 90, 90, 90, 90, 90, 90],
        [(40 : ℚ), 40, 40, 40, 40, 30, 30, 30, 30, 30]] : List (List ℚ)).length ∧
    (∀ r ∈ [[(90 : ℚ), 90, 90, 90, 90, 90, 90, 90, 90, 90],
            [(40 : ℚ), 40, 40, 40, 40, 30, 30, 30, 30, 30]], r.length = 10) ∧
    ((∀ s ∈ ["A", "B"], ∃ st : SectionStats,
      analyze_sections ["A", "B"]
        [[(90 : ℚ), 90, 90, 90, 90, 90, 90, 90, 90, 90],
         [(40 : ℚ), 40, 40, 40, 40, 30, 30, 30, 30, 30]] s = some st ∧
      st.count = (["A", "B"] : List String).countP (fun x => x == s) ∧
      st.count = (sectionRows ["A", "B"]
        [[(90 : ℚ), 90, 90, 90, 90, 90, 90, 90, 90, 90],
         [(40 : ℚ), 40, 40, 40, 40, 30, 30, 30, 30, 30]] s).length ∧
      0 < st.count ∧
      st.avg * (10 * (st.count : ℚ)) =
        (flatten (sectionRows ["A", "B"]
          [[(90 : ℚ), 90, 90, 90, 90, 90, 90, 90, 90, 90],
           [(40 : ℚ), 40, 40, 40, 40, 30, 30, 30, 30, 30]] s)).sum) ∧
    (∀ s : String, s ∉ (["A", "B"] : List String) →
      analyze_sections ["A", "B"]
        [[(90 : ℚ), 90, 90, 90, 90, 90, 90, 90, 90, 90],
         [(40 : ℚ), 40, 40, 40, 40, 30, 30, 30, 30, 30]] s = none) ∧
    (∀ s : String, analyze_sections [] [] s = none) ∧
    (∃ st : SectionStats,
      analyze_sections ["A", "A"]
        [[90, 90, 90, 90, 90, 90, 90, 90, 90, 90],
         [80, 80, 80, 80, 80, 80, 80, 80, 80, 80]] "A" = some st ∧
      st.count = 2 ∧ st.avg = 85)) :=
  ⟨by decide, by decide,
    C8_analyze_sections ["A", "B"]
      [[(90 : ℚ), 90, 90, 90, 90, 90, 90, 90, 90, 90],
       [(40 : ℚ), 40, 40, 40, 40, 30, 30, 30, 30, 30]] (by decide) (by decide)⟩

end SPA
